import Mathlib

/-
Verification of the syncbops repository (an incremental music-library
mirroring tool) against its natural-language specification.

The repository mixes several revisions of the same modules; per the
specification, the authoritative revisions of the components treated here
are src/sync_song.rs (change detector and per-song sync), src/hashing.rs
(sync-record store) and src/music_library.rs (data model, encoding specs,
art strategy).

Shallow-embedding conventions:
- Paths (std::path::PathBuf) are modelled as String; Path::join is string
  concatenation with a slash separator.
- u32 / u64 / usize values are modelled as Nat (only comparisons and table
  lookups occur, no overflowing arithmetic).
- SystemTime is modelled as Nat.
- Filesystem reads and subprocess probes performed by the detector are
  modelled by an explicit environment record (DetectEnv / SyncEnv) holding
  the result each such call would return for the one source file and the
  one candidate target path a given detector invocation looks at.
- A Rust function that can reach a panic is embedded with result type
  Option (none = the panicking branch was taken).
- Error payloads (message strings, wrapped io::Error values, paths) are
  never inspected by the control flow the claims concern, so the error
  enums are embedded payload-free.
-/

namespace Syncbops

/-- UpdateType from src/music_library.rs lines 22-40: the outcome taxonomy
of the change detector. -/
inductive UpdateType where
  | noChange
  | newTranscode
  | overwrite
  | forceOverwrite
  | transcodeMissingTarget
  | copied
deriving DecidableEq

/-- ArtStrategy from src/music_library.rs lines 459-470. -/
inductive ArtStrategy where
  | none
  | embedAll
  | preferFile
  | fileOnly
deriving DecidableEq

/-- MusicFileType from src/music_library.rs lines 49-87: the target
encoding spec.  The Vorbis quality is an f64 in the source; it is modelled
as a rational (only the Mp3VBR branch of equivalent_bitrate is the subject
of a claim, and no claim depends on the Vorbis value). -/
inductive MusicFileType where
  | mp3CBR (bitrate : Nat)
  | mp3VBR (quality : Nat)
  | opus (bitrate : Nat) (compression_level : Nat)
  | vorbis (quality : ℚ)
  | flac (quality : Nat)
deriving DecidableEq

/-- equivalent_bitrate from src/music_library.rs lines 91-127.
The Mp3VBR arm matches the quality against the table 0..9 and panics on
any other value; the panic is modelled as none.  The Vorbis arm models
the f64 formula over the rationals; .round models f64::round and .toNat
models the clamping of the saturating `as u32` cast (the source values are
nonnegative for the documented quality range). -/
def MusicFileType.equivalent_bitrate : MusicFileType → Option Nat
  | .mp3CBR bitrate => some bitrate
  | .mp3VBR quality =>
    match quality with
    | 0 => some 245
    | 1 => some 225
    | 2 => some 190
    | 3 => some 175
    | 4 => some 165
    | 5 => some 130
    | 6 => some 115
    | 7 => some 100
    | 8 => some 85
    | 9 => some 65
    | _ => none
  | .opus bitrate _ => some bitrate
  | .vorbis quality =>
    some (Int.toNat (round
      (if quality < 4 then 16 * (quality + 4)
       else if quality < 8 then 32 * quality
       else 64 * (quality - 4))))
  | .flac _ => some 800

/-- The Display impl for MusicFileType, src/music_library.rs lines 150-164:
the canonical file extension of each encoding. -/
def MusicFileType.extension : MusicFileType → String
  | .mp3VBR _ => "mp3"
  | .mp3CBR _ => "mp3"
  | .opus _ _ => "opus"
  | .vorbis _ => "ogg"
  | .flac _ => "flac"

/-- The variants of FfmpegError, src/ffmpeg_interface.rs lines 263-294
(payloads dropped; they are never inspected). -/
inductive FfmpegError where
  | ffmpegNotSuccesful
  | transcodeCommand
  | checkForAlbumArtCommand
  | bitrate
  | jsonMetadata
  | fileDoesNotExist
deriving DecidableEq

/-- SongMetaData from src/ffmpeg_interface.rs lines 11-18. -/
structure SongMetaData where
  title : Option String
  bitrate_kbps : Nat
  has_embedded_album_art : Bool
deriving DecidableEq

/-- Song from src/song.rs lines 7-18. -/
structure Song where
  absolute_path : String
  library_relative_path : String
  external_album_art : Option String
  metadata : SongMetaData
deriving DecidableEq

/-- SyncRecord from src/hashing.rs lines 14-21. -/
structure SyncRecord where
  library_relative_path : String
  update_type : Option UpdateType
  date : Nat
  hash : Option Nat
deriving DecidableEq

/-- set_update_type from src/hashing.rs lines 33-38. -/
def SyncRecord.set_update_type (r : SyncRecord) (update_type : UpdateType) :
    SyncRecord :=
  { r with update_type := some update_type }

/-- PreviousSyncDb from src/hashing.rs line 60: a HashMap from
library-relative path to SyncRecord, modelled as an association list with
first-match lookup. -/
abbrev PreviousSyncDb := List (String × SyncRecord)

/-- HashMap::get on the association-list model. -/
def dbGet : PreviousSyncDb → String → Option SyncRecord
  | [], _ => Option.none
  | e :: rest, p => if e.1 = p then some e.2 else dbGet rest p

/-- HashMap::insert on the association-list model: under dbGet, prepending
observationally replaces any existing entry for the same key. -/
def dbInsert (db : PreviousSyncDb) (p : String) (r : SyncRecord) :
    PreviousSyncDb :=
  (p, r) :: db

/-- Decidable equality for Except results, needed to evaluate concrete
detector environments. -/
instance {ε α : Type} [DecidableEq ε] [DecidableEq α] :
    DecidableEq (Except ε α)
  | Except.error e, Except.error f => decidable_of_iff (e = f) (by simp)
  | Except.error _, Except.ok _ => isFalse (by simp)
  | Except.ok _, Except.error _ => isFalse (by simp)
  | Except.ok a, Except.ok b => decidable_of_iff (a = b) (by simp)

/-- The filesystem and subprocess results one detector invocation can
observe, for the one source file and the one candidate target path it is
called with:
- sourceHash: the result of hash_file(song.absolute_path)
  (src/hashing.rs lines 187-191; none on I/O failure);
- targetExists: target.exists();
- targetProbe: what ffprobe reports for the target when it exists
  (src/ffmpeg_interface.rs lines 33-113);
- sourceNewerThanTarget: the result of
  has_source_changed_after_target_has_been_created
  (src/sync_song.rs lines 310-325; the error payload, a wrapped io::Error,
  is never inspected, so it is modelled as Unit). -/
structure DetectEnv where
  sourceHash : Option Nat
  targetExists : Bool
  targetProbe : Except FfmpegError SongMetaData
  sourceNewerThanTarget : Except Unit Bool
deriving DecidableEq

/-- SongMetaData::parse_file for the target path,
src/ffmpeg_interface.rs lines 21-31: the probe first checks
path.exists() and returns FileDoesNotExist when the file is absent;
otherwise it returns whatever ffprobe yields. -/
def SongMetaData.parse_file (env : DetectEnv) : Except FfmpegError SongMetaData :=
  if env.targetExists then env.targetProbe
  else Except.error FfmpegError.fileDoesNotExist

/-- compare_files_on_metadata from src/sync_song.rs lines 214-252 (the
progress-bar and verbose-logging parameters only produce log output and
are dropped).  Note the Err arm returns Overwrite for every probe error,
including FileDoesNotExist; the source there carries
debug_assert!(target.exists(), ..). -/
def compare_files_on_metadata (source : Song) (env : DetectEnv)
    (want_embedded_album_art : Bool) (desired_bitrate : Nat) : UpdateType :=
  match SongMetaData.parse_file env with
  | Except.ok shadow_metadata =>
    if source.metadata.title = shadow_metadata.title
        ∧ want_embedded_album_art = shadow_metadata.has_embedded_album_art then
      UpdateType.noChange
    else
      if source.metadata.bitrate_kbps < desired_bitrate then UpdateType.copied
      else UpdateType.overwrite
  | Except.error _ => UpdateType.overwrite

/-- The shared tail of has_music_file_changed_based_on_hash_and_records,
src/sync_song.rs lines 285-307: reached when the record lookup was
inconclusive (no record, or a record without a stored hash). -/
def hash_records_fallthrough (song : Song) (env : DetectEnv)
    (want_embedded_album_art : Bool) (desired_bitrate : Nat) : UpdateType :=
  if env.targetExists = false then
    if song.metadata.bitrate_kbps < desired_bitrate then UpdateType.copied
    else UpdateType.newTranscode
  else
    compare_files_on_metadata song env want_embedded_album_art desired_bitrate

/-- has_music_file_changed_based_on_hash_and_records from
src/sync_song.rs lines 254-308. -/
def has_music_file_changed_based_on_hash_and_records (song : Song)
    (source_hash : Nat) (env : DetectEnv) (want_embedded_album_art : Bool)
    (desired_bitrate : Nat) (db : PreviousSyncDb) : UpdateType :=
  match dbGet db song.library_relative_path with
  | some previous_record =>
    if env.targetExists = false then UpdateType.transcodeMissingTarget
    else
      match previous_record.hash with
      | some hash_at_previous_sync =>
        if hash_at_previous_sync = source_hash then UpdateType.noChange
        else UpdateType.overwrite
      | Option.none =>
        hash_records_fallthrough song env want_embedded_album_art desired_bitrate
  | Option.none =>
    hash_records_fallthrough song env want_embedded_album_art desired_bitrate

/-- has_music_file_changed from src/sync_song.rs lines 102-210: the change
detector.  Step order as in the source: hash the source (falling back to
the metadata comparison on failure), consult the records when a database
was supplied, otherwise check target existence, then the
modified-after-created comparison, then the metadata comparison. -/
def has_music_file_changed (song : Song) (env : DetectEnv)
    (previous_sync_db : Option PreviousSyncDb)
    (want_embedded_album_art : Bool) (desired_bitrate : Nat) : UpdateType :=
  match env.sourceHash with
  | Option.none =>
    compare_files_on_metadata song env want_embedded_album_art desired_bitrate
  | some source_hash =>
    match previous_sync_db with
    | some db =>
      has_music_file_changed_based_on_hash_and_records song source_hash env
        want_embedded_album_art desired_bitrate db
    | Option.none =>
      if env.targetExists = false then
        if song.metadata.bitrate_kbps < desired_bitrate then UpdateType.copied
        else UpdateType.newTranscode
      else
        match env.sourceNewerThanTarget with
        | Except.error _ =>
          compare_files_on_metadata song env want_embedded_album_art
            desired_bitrate
        | Except.ok target_is_outdated =>
          if target_is_outdated then
            if song.metadata.bitrate_kbps < desired_bitrate then
              UpdateType.copied
            else UpdateType.newTranscode
          else
            compare_files_on_metadata song env want_embedded_album_art
              desired_bitrate

/-- The art-resolution decision computed at the top of sync_song,
src/sync_song.rs lines 32-43 (written there with an explicit
if-is_some-then-false-else-true). -/
def want_embedded_album_art (art_strategy : ArtStrategy) (song : Song) : Bool :=
  match art_strategy with
  | ArtStrategy.none => false
  | ArtStrategy.embedAll => true
  | ArtStrategy.preferFile =>
    if song.external_album_art.isSome then false else true
  | ArtStrategy.fileOnly => false

/-- The second, syntactically different computation of the same decision in
sync_song, src/sync_song.rs lines 71-76 (written with is_none). -/
def whether_to_embed_art (art_strategy : ArtStrategy) (song : Song) : Bool :=
  match art_strategy with
  | ArtStrategy.none => false
  | ArtStrategy.embedAll => true
  | ArtStrategy.preferFile => song.external_album_art.isNone
  | ArtStrategy.fileOnly => false

/-- The specification's art-policy table, written from the words of spec
section 4.3: None is always false, EmbedAll always true, PreferFile true
exactly when the song has no external album-art file, FileOnly always
false.  Used only to compare the source's decision against the spec. -/
def art_policy_spec_table (strategy : ArtStrategy) (song : Song) : Bool :=
  match strategy with
  | ArtStrategy.none => false
  | ArtStrategy.embedAll => true
  | ArtStrategy.preferFile => song.external_album_art = Option.none
  | ArtStrategy.fileOnly => false

/-- Path::with_extension modelled at string level: replace everything after
the last dot of the final path component (or append the extension when the
final component has none).  No claim depends on path arithmetic. -/
def withExtension (p ext : String) : String :=
  let rev := p.toList.reverse
  if (rev.takeWhile (fun c => c ≠ '/')).contains '.' then
    String.mk (((rev.dropWhile (fun c => c ≠ '.')).drop 1).reverse)
      ++ "." ++ ext
  else p ++ "." ++ ext

/-- get_shadow_filename from src/music_library.rs lines 450-457: where the
synchronised copy of a song goes. -/
def get_shadow_filename (library_relative_path : String)
    (target_library : String) (filetype : MusicFileType) : String :=
  target_library ++ "/" ++ withExtension library_relative_path filetype.extension

/-- The environment of one sync_song invocation: the detector environment
for the song's shadow path (as computed by get_shadow_filename), plus the
results of the effectful calls sync_song itself makes. -/
structure SyncEnv where
  detect : DetectEnv
  /-- SystemTime::now at record creation. -/
  now : Nat
  /-- Whether std::fs::copy of the source to the shadow would succeed
  (the source unwraps it with expect, panicking on failure). -/
  copySucceeds : Bool
  /-- The result transcode_song would return (the external ffmpeg
  invocation, src/ffmpeg_interface.rs lines 117-261). -/
  transcodeResult : Except FfmpegError Unit
deriving DecidableEq

/-- Modelled from the spec: SyncRecord::from_song is called by sync_song
(src/sync_song.rs line 54) but no revision of it appears under src/;
src/hashing.rs only has the analogous SyncRecord::from_file_path
(lines 24-31).  Per spec section 4.5 step 5 the returned record carries
the freshly computed source hash; following from_file_path it keeps the
song's library-relative path, no update type yet, and the current time. -/
def SyncRecord.from_song (song : Song) (env : SyncEnv) : SyncRecord :=
  { library_relative_path := song.library_relative_path
    update_type := Option.none
    date := env.now
    hash := env.detect.sourceHash }

/-- The filesystem-writing actions sync_song can perform, in order:
fs::create_dir_all on the shadow's parent, std::fs::copy of the source to
the shadow, or an invocation of the external transcoder (recorded with the
embed-art instruction it was given). -/
inductive FsEffect where
  | createDirAll
  | copyFile
  | transcode (embed_art : Bool)
deriving DecidableEq

/-- The result of one sync_song call: panicked (an expect or a panic in
equivalent_bitrate fired), failed (a transcoder error propagated with ?),
or ok with the returned record. -/
inductive SyncOutcome where
  | panicked
  | failed (e : FfmpegError)
  | ok (record : SyncRecord)
deriving DecidableEq

/-- sync_song from src/sync_song.rs lines 15-98 (the progress-bar and
verbose parameters only produce log output and are dropped).  Returns the
outcome paired with the ordered list of filesystem writes performed.
The shadow path the env refers to is
get_shadow_filename song.library_relative_path target_library
target_filetype; its value feeds only the env-modelled calls, so it does
not appear in the body.  equivalent_bitrate is computed before detection,
so an Mp3VBR quality above 9 panics before any other work. -/
def sync_song (song : Song) (target_filetype : MusicFileType)
    (art_strategy : ArtStrategy) (previous_sync_db : Option PreviousSyncDb)
    (force dry_run : Bool) (env : SyncEnv) : SyncOutcome × List FsEffect :=
  match MusicFileType.equivalent_bitrate target_filetype with
  | Option.none => (SyncOutcome.panicked, [])
  | some desired_bitrate =>
    let status := has_music_file_changed song env.detect previous_sync_db
      (want_embedded_album_art art_strategy song) desired_bitrate
    let new_sync_record := SyncRecord.from_song song env
    -- Early exit if unchanged; if force, upgrade to ForceOverwrite instead.
    if status = UpdateType.noChange ∧ force = false then
      (SyncOutcome.ok (new_sync_record.set_update_type status), [])
    else
      let status := if status = UpdateType.noChange then
          UpdateType.forceOverwrite
        else status
      if dry_run then
        (SyncOutcome.ok (new_sync_record.set_update_type status), [])
      else
        if status = UpdateType.copied then
          if env.copySucceeds then
            (SyncOutcome.ok (new_sync_record.set_update_type status),
              [FsEffect.createDirAll, FsEffect.copyFile])
          else
            (SyncOutcome.panicked, [FsEffect.createDirAll, FsEffect.copyFile])
        else
          match env.transcodeResult with
          | Except.ok _ =>
            (SyncOutcome.ok (new_sync_record.set_update_type status),
              [FsEffect.createDirAll,
                FsEffect.transcode (whether_to_embed_art art_strategy song)])
          | Except.error e =>
            (SyncOutcome.failed e,
              [FsEffect.createDirAll,
                FsEffect.transcode (whether_to_embed_art art_strategy song)])

/-- save_record_to_previous_sync_db from src/hashing.rs lines 168-185:
merge one finished record into the database.  The source unwraps
update_type with expect (modelled as none = panic) and skips the insert
for the variant it spells UpdateType::Unchanged - the superseded revision
name for the authoritative enum's NoChange variant (src/music_library.rs
line 26), which is how the claims and spec read it. -/
def save_record_to_previous_sync_db (previous_sync_db : PreviousSyncDb)
    (sync_record : SyncRecord) : Option PreviousSyncDb :=
  match sync_record.update_type with
  | Option.none => Option.none
  | some update_type =>
    if update_type = UpdateType.noChange then some previous_sync_db
    else
      some (dbInsert previous_sync_db sync_record.library_relative_path
        sync_record)

/-- PREVIOUS_SYNC_DB_FILENAME from src/hashing.rs line 113. -/
def PREVIOUS_SYNC_DB_FILENAME : String := "bopsync.dat"

/-- generate_potential_locations_for_database_file from src/hashing.rs
lines 109-126.  current_dir models std::env::current_dir() (none = Err)
and home_dir models dirs::home_dir().  Note the source joins the database
filename onto the target library only; for the working directory and the
home directory it pushes the directory path itself. -/
def generate_potential_locations_for_database_file (target_library : String)
    (current_dir : Option String) (home_dir : Option String) : List String :=
  ([target_library ++ "/" ++ PREVIOUS_SYNC_DB_FILENAME]
    ++ current_dir.toList) ++ home_dir.toList

/-- The candidate loop of try_read_records, src/hashing.rs lines 65-75:
return the first candidate that load_previous_sync parses, else fall
through. load_previous_sync (lines 80-107) is abstracted as the parse
oracle: some db exactly when the candidate file both opens and parses. -/
def first_parsed_records (parse : String → Option PreviousSyncDb) :
    List String → Option PreviousSyncDb
  | [] => Option.none
  | f :: rest =>
    match parse f with
    | some x => some x
    | Option.none => first_parsed_records parse rest

/-- try_read_records from src/hashing.rs lines 63-78: try every candidate
location in order and fall back to an empty database (no history) when
none parses. -/
def try_read_records (parse : String → Option PreviousSyncDb)
    (target_library : String) (current_dir : Option String)
    (home_dir : Option String) : PreviousSyncDb :=
  match first_parsed_records parse
      (generate_potential_locations_for_database_file target_library
        current_dir home_dir) with
  | some x => x
  | Option.none => []

/- Concrete fixtures used by witnesses, counterexamples and code-bug
evaluations. -/

/-- A plain source song: title "track", 128 kbps, no art anywhere. -/
def song_plain : Song :=
  { absolute_path := "/lib/a.mp3"
    library_relative_path := "a.mp3"
    external_album_art := Option.none
    metadata := { title := some "track", bitrate_kbps := 128,
                  has_embedded_album_art := false } }

/-- C1 fixture: a record for the song's path whose stored hash (99) differs
from the computed source hash (5); the target file is absent. -/
def rec_c1 : SyncRecord :=
  { library_relative_path := "a.mp3", update_type := some UpdateType.newTranscode
    date := 0, hash := some 99 }

/-- C1 fixture: the previous-sync database holding rec_c1. -/
def db_c1 : PreviousSyncDb := [("a.mp3", rec_c1)]

/-- C1 fixture: source hashing succeeds with 5, the target does not exist. -/
def env_c1 : DetectEnv :=
  { sourceHash := some 5, targetExists := false
    targetProbe := Except.error FfmpegError.fileDoesNotExist
    sourceNewerThanTarget := Except.ok false }

/-- C2 fixture: a 100 kbps source, for the boundary case where the
requested equivalent bitrate equals the source bitrate. -/
def song_c2 : Song :=
  { absolute_path := "/lib/b.mp3"
    library_relative_path := "b.mp3"
    external_album_art := Option.none
    metadata := { title := some "b", bitrate_kbps := 100,
                  has_embedded_album_art := false } }

/-- C2 fixture: a 50 kbps source, strictly below the requested 100 kbps. -/
def song_c2w : Song :=
  { absolute_path := "/lib/c.mp3"
    library_relative_path := "c.mp3"
    external_album_art := Option.none
    metadata := { title := some "c", bitrate_kbps := 50,
                  has_embedded_album_art := false } }

/-- C2 fixture: hashing succeeds, no database, target absent - the
detector lands on the step-3 copy-vs-transcode choice. -/
def env_c2 : DetectEnv :=
  { sourceHash := some 1, targetExists := false
    targetProbe := Except.error FfmpegError.fileDoesNotExist
    sourceNewerThanTarget := Except.ok false }

/-- C4 fixture: a record for the song's path with no stored hash. -/
def rec_c4 : SyncRecord :=
  { library_relative_path := "a.mp3", update_type := some UpdateType.newTranscode
    date := 0, hash := Option.none }

/-- C4 fixture: database holding the hashless rec_c4. -/
def db_c4 : PreviousSyncDb := [("a.mp3", rec_c4)]

/-- C4 fixture: a record for the song's path whose stored hash 9 differs
from the source hash 7. -/
def rec_c4b : SyncRecord :=
  { library_relative_path := "a.mp3", update_type := some UpdateType.newTranscode
    date := 0, hash := some 9 }

/-- C4 fixture: database holding rec_c4b. -/
def db_c4b : PreviousSyncDb := [("a.mp3", rec_c4b)]

/-- C4 fixture: hashing succeeds with 7, the target exists, and probing the
target reports the same title as song_plain with no embedded art - so the
metadata fallback sees no difference. -/
def env_c4 : DetectEnv :=
  { sourceHash := some 7, targetExists := true
    targetProbe := Except.ok { title := some "track", bitrate_kbps := 60,
                               has_embedded_album_art := false }
    sourceNewerThanTarget := Except.ok false }

/-- C5 fixture: hashing the source fails and the target does not exist, so
the metadata fallback is entered and its probe reports FileDoesNotExist. -/
def env_c5 : DetectEnv :=
  { sourceHash := Option.none, targetExists := false
    targetProbe := Except.error FfmpegError.fileDoesNotExist
    sourceNewerThanTarget := Except.ok false }

/-- C6 fixture: a finished record with outcome Overwrite. -/
def rec_c6 : SyncRecord :=
  { library_relative_path := "b.mp3", update_type := some UpdateType.overwrite
    date := 1, hash := some 3 }

/-- C7 fixture: a well-formed record for the database sitting in the
current working directory. -/
def rec_c7 : SyncRecord :=
  { library_relative_path := "a.mp3", update_type := some UpdateType.newTranscode
    date := 0, hash := some 11 }

/-- C7 fixture: the parseable database content at /cwd/bopsync.dat. -/
def db_c7 : PreviousSyncDb := [("a.mp3", rec_c7)]

/-- C7 fixture: the parse oracle - exactly one file on the whole system
both opens and parses as a records database: /cwd/bopsync.dat. -/
def parse_c7 : String → Option PreviousSyncDb := fun p =>
  if p = "/cwd/bopsync.dat" then some db_c7 else Option.none

/-- C8/C9 fixture: a sync environment whose detector sees a record with a
matching hash (so detection alone yields NoChange) and whose transcoder
invocation succeeds. -/
def env_c8 : SyncEnv :=
  { detect := { sourceHash := some 99, targetExists := true
                targetProbe := Except.ok { title := some "track",
                                           bitrate_kbps := 60,
                                           has_embedded_album_art := false }
                sourceNewerThanTarget := Except.ok false }
    now := 42
    copySucceeds := true
    transcodeResult := Except.ok () }

/-- C8/C9 fixture: a record for song_plain's path whose stored hash equals
env_c8's source hash, making the detector return NoChange. -/
def rec_c8 : SyncRecord :=
  { library_relative_path := "a.mp3", update_type := some UpdateType.newTranscode
    date := 0, hash := some 99 }

/-- C8/C9 fixture: database holding rec_c8. -/
def db_c8 : PreviousSyncDb := [("a.mp3", rec_c8)]

/- Helper lemmas shared by several claims. -/

/-- The metadata fallback yields Copied only when the source bitrate is
strictly below the desired bitrate. -/
lemma compare_copied_lt (source : Song) (env : DetectEnv) (want : Bool)
    (desired : Nat)
    (h : compare_files_on_metadata source env want desired = UpdateType.copied) :
    source.metadata.bitrate_kbps < desired := by
  unfold compare_files_on_metadata at h
  split at h
  · split at h
    · exact absurd h (by simp)
    · split at h
      · assumption
      · exact absurd h (by simp)
  · exact absurd h (by simp)

/-- The metadata fallback never yields NewTranscode. -/
lemma compare_ne_newTranscode (source : Song) (env : DetectEnv) (want : Bool)
    (desired : Nat) :
    compare_files_on_metadata source env want desired ≠ UpdateType.newTranscode := by
  unfold compare_files_on_metadata
  split
  · split
    · simp
    · split <;> simp
  · simp

/-- The records fallthrough yields Copied only when strictly below the
desired bitrate. -/
lemma fallthrough_copied_lt (song : Song) (env : DetectEnv) (want : Bool)
    (desired : Nat)
    (h : hash_records_fallthrough song env want desired = UpdateType.copied) :
    song.metadata.bitrate_kbps < desired := by
  unfold hash_records_fallthrough at h
  split at h
  · split at h
    · assumption
    · exact absurd h (by simp)
  · exact compare_copied_lt song env want desired h

/-- The records fallthrough yields NewTranscode only when the source
bitrate is at or above the desired bitrate. -/
lemma fallthrough_newTranscode_ge (song : Song) (env : DetectEnv)
    (want : Bool) (desired : Nat)
    (h : hash_records_fallthrough song env want desired = UpdateType.newTranscode) :
    desired ≤ song.metadata.bitrate_kbps := by
  unfold hash_records_fallthrough at h
  split at h
  · split at h
    · exact absurd h (by simp)
    · omega
  · exact absurd h (compare_ne_newTranscode song env want desired)

/-- The hash-and-records branch yields Copied only strictly below the
desired bitrate. -/
lemma records_copied_lt (song : Song) (source_hash : Nat) (env : DetectEnv)
    (want : Bool) (desired : Nat) (db : PreviousSyncDb)
    (h : has_music_file_changed_based_on_hash_and_records song source_hash env
      want desired db = UpdateType.copied) :
    song.metadata.bitrate_kbps < desired := by
  unfold has_music_file_changed_based_on_hash_and_records at h
  split at h
  · split at h
    · exact absurd h (by simp)
    · split at h
      · split at h <;> exact absurd h (by simp)
      · exact fallthrough_copied_lt song env want desired h
  · exact fallthrough_copied_lt song env want desired h

/-- The hash-and-records branch yields NewTranscode only at or above the
desired bitrate. -/
lemma records_newTranscode_ge (song : Song) (source_hash : Nat)
    (env : DetectEnv) (want : Bool) (desired : Nat) (db : PreviousSyncDb)
    (h : has_music_file_changed_based_on_hash_and_records song source_hash env
      want desired db = UpdateType.newTranscode) :
    desired ≤ song.metadata.bitrate_kbps := by
  unfold has_music_file_changed_based_on_hash_and_records at h
  split at h
  · split at h
    · exact absurd h (by simp)
    · split at h
      · split at h <;> exact absurd h (by simp)
      · exact fallthrough_newTranscode_ge song env want desired h
  · exact fallthrough_newTranscode_ge song env want desired h

/-- C1: whenever a previous-sync database is supplied and holds a record
for the song's library-relative path, and the candidate target path does
not exist on disk, the change detector returns TranscodeMissingTarget, for
every state of the record's stored hash (present and equal, present and
different, or absent).  Source hashing succeeding is the step-2 context in
which the stored hash is compared at all. -/
theorem c1_missing_target_detection (song : Song) (env : DetectEnv)
    (db : PreviousSyncDb) (want : Bool) (desired h : Nat) (rec : SyncRecord)
    (hhash : env.sourceHash = some h)
    (hrec : dbGet db song.library_relative_path = some rec)
    (hmiss : env.targetExists = false) :
    has_music_file_changed song env (some db) want desired
      = UpdateType.transcodeMissingTarget := by
  unfold has_music_file_changed has_music_file_changed_based_on_hash_and_records
  simp [hhash, hrec, hmiss]

/-- C1 witness: a concrete database entry for song_plain whose stored hash
(99) differs from the computed source hash (5), with the target absent. -/
theorem c1_missing_target_detection_witness :
    env_c1.sourceHash = some 5
    ∧ dbGet db_c1 song_plain.library_relative_path = some rec_c1
    ∧ env_c1.targetExists = false
    ∧ has_music_file_changed song_plain env_c1 (some db_c1) false 100
        = UpdateType.transcodeMissingTarget :=
  ⟨rfl, by decide, rfl,
    c1_missing_target_detection song_plain env_c1 db_c1 false 100 5 rec_c1
      rfl (by decide) rfl⟩

/-- C2 counterexample: at the boundary equivalent_bitrate = source bitrate
(both 100), the detector's copy-vs-transcode choice yields NewTranscode,
not Copied: the source compares with a strict less-than
(bitrate_kbps < desired_bitrate → Copied). -/
theorem c2_boundary_counterexample :
    MusicFileType.equivalent_bitrate (MusicFileType.mp3CBR 100) = some 100
    ∧ song_c2.metadata.bitrate_kbps = 100
    ∧ has_music_file_changed song_c2 env_c2 Option.none false 100
        = UpdateType.newTranscode := by decide

/-- C2 amended: the copy-vs-transcode comparison is strict.  The detector
produces Copied only when the source bitrate is strictly below the desired
equivalent bitrate, produces NewTranscode only when the source bitrate is
at or above it, and at the metadata-comparison choice site (probe
succeeded, attributes differ) it produces exactly
if source < desired then Copied else Overwrite. -/
theorem c2_no_upscaling_strict (song : Song) (env : DetectEnv)
    (previous_sync_db : Option PreviousSyncDb) (want : Bool) (desired : Nat) :
    (has_music_file_changed song env previous_sync_db want desired
        = UpdateType.copied → song.metadata.bitrate_kbps < desired)
    ∧ (has_music_file_changed song env previous_sync_db want desired
        = UpdateType.newTranscode → desired ≤ song.metadata.bitrate_kbps)
    ∧ (∀ md : SongMetaData, env.targetExists = true
        → env.targetProbe = Except.ok md
        → ¬(song.metadata.title = md.title
            ∧ want = md.has_embedded_album_art)
        → compare_files_on_metadata song env want desired
            = if song.metadata.bitrate_kbps < desired then UpdateType.copied
              else UpdateType.overwrite) := by
  refine ⟨?_, ?_, ?_⟩
  · intro h
    unfold has_music_file_changed at h
    split at h
    · exact compare_copied_lt song env want desired h
    · split at h
      · exact records_copied_lt song _ env want desired _ h
      · split at h
        · split at h
          · assumption
          · exact absurd h (by simp)
        · split at h
          · exact compare_copied_lt song env want desired h
          · split at h
            · split at h
              · assumption
              · exact absurd h (by simp)
            · exact compare_copied_lt song env want desired h
  · intro h
    unfold has_music_file_changed at h
    split at h
    · exact absurd h (compare_ne_newTranscode song env want desired)
    · split at h
      · exact records_newTranscode_ge song _ env want desired _ h
      · split at h
        · split at h
          · exact absurd h (by simp)
          · omega
        · split at h
          · exact absurd h (compare_ne_newTranscode song env want desired)
          · split at h
            · split at h
              · exact absurd h (by simp)
              · omega
            · exact absurd h (compare_ne_newTranscode song env want desired)
  · intro md hex hprobe hne
    unfold compare_files_on_metadata SongMetaData.parse_file
    rw [hex]
    simp only [if_true]
    rw [hprobe]
    simp only [hne, if_false]

/-- C2 witness: a 50 kbps source against a requested 100 kbps, where the
detector does choose Copied, and the strict comparison certifies
50 < 100. -/
theorem c2_no_upscaling_strict_witness :
    has_music_file_changed song_c2w env_c2 Option.none false 100
        = UpdateType.copied
    ∧ song_c2w.metadata.bitrate_kbps < 100 :=
  ⟨by decide,
    (c2_no_upscaling_strict song_c2w env_c2 Option.none false 100).1 (by decide)⟩

/-- C3: for every strategy and every song (hence all 16 combinations of
the 4 strategies with the 4 art-availability shapes), both computations of
the embedding decision in sync_song equal the section-4.3 policy table:
None and FileOnly never embed, EmbedAll always embeds, PreferFile embeds
exactly when the song has no external art file. -/
theorem c3_art_policy_matrix (strategy : ArtStrategy) (song : Song) :
    want_embedded_album_art strategy song = art_policy_spec_table strategy song
    ∧ whether_to_embed_art strategy song = art_policy_spec_table strategy song := by
  cases strategy <;>
    cases h : song.external_album_art <;>
      simp [want_embedded_album_art, whether_to_embed_art,
        art_policy_spec_table, h]

/-- C4 counterexample: a record for the song's path with NO stored hash,
while the target exists and probing it shows matching title and art
state - the detector returns NoChange, not the Overwrite the claim
requires for the no-stored-hash case. -/
theorem c4_missing_hash_counterexample :
    env_c4.sourceHash = some 7
    ∧ dbGet db_c4 song_plain.library_relative_path = some rec_c4
    ∧ rec_c4.hash = Option.none
    ∧ env_c4.targetExists = true
    ∧ has_music_file_changed song_plain env_c4 (some db_c4) false 100
        = UpdateType.noChange := by decide

/-- C4 amended: with a successful source hash, a record for the path and
an existing target, a stored hash differing from the source hash yields
Overwrite; but a record with no stored hash does not yield Overwrite
directly - the detector falls through to the step-4 metadata comparison
(which may return NoChange, Copied or Overwrite). -/
theorem c4_hash_mismatch_overwrite (song : Song) (env : DetectEnv)
    (db : PreviousSyncDb) (want : Bool) (desired h : Nat) (rec : SyncRecord)
    (hhash : env.sourceHash = some h)
    (hrec : dbGet db song.library_relative_path = some rec)
    (hex : env.targetExists = true) :
    (∀ h0, rec.hash = some h0 → h0 ≠ h →
      has_music_file_changed song env (some db) want desired
        = UpdateType.overwrite)
    ∧ (rec.hash = Option.none →
      has_music_file_changed song env (some db) want desired
        = compare_files_on_metadata song env want desired) := by
  constructor
  · intro h0 hstored hne
    unfold has_music_file_changed has_music_file_changed_based_on_hash_and_records
    simp [hhash, hrec, hex, hstored, hne]
  · intro hstored
    unfold has_music_file_changed has_music_file_changed_based_on_hash_and_records
      hash_records_fallthrough
    simp [hhash, hrec, hex, hstored]

/-- C4 witness: stored hash 9 against source hash 7 with an existing
target gives Overwrite. -/
theorem c4_hash_mismatch_overwrite_witness :
    has_music_file_changed song_plain env_c4 (some db_c4b) false 100
      = UpdateType.overwrite :=
  (c4_hash_mismatch_overwrite song_plain env_c4 db_c4b false 100 7 rec_c4b
    rfl (by decide) rfl).1 9 rfl (by decide)

/-- C5: evaluation at the failing input. When source hashing fails and the
candidate target does not exist, the metadata fallback is entered, its
probe reports the distinguished FileDoesNotExist error, yet
compare_files_on_metadata maps every probe error to Overwrite - so the
detector returns Overwrite even though the source bitrate (128) is below
the desired bitrate (200), where the claim and spec require NewTranscode
or Copied; the source's own debug_assert there claims the target must
exist. -/
theorem c5_probe_error_not_distinguished :
    SongMetaData.parse_file env_c5
        = Except.error FfmpegError.fileDoesNotExist
    ∧ song_plain.metadata.bitrate_kbps < 200
    ∧ has_music_file_changed song_plain env_c5 Option.none false 200
        = UpdateType.overwrite := by decide

/-- C6: merging a finished record (update type set) into the database
never inserts a NoChange record - the database is returned unchanged - and
for every other outcome the new record replaces the entry for its
library-relative path; consequently every entry the merge changed carries
an outcome different from NoChange. -/
theorem c6_merge_skips_noChange (db : PreviousSyncDb) (r : SyncRecord)
    (u : UpdateType) (hu : r.update_type = some u) :
    (u = UpdateType.noChange →
      save_record_to_previous_sync_db db r = some db)
    ∧ (u ≠ UpdateType.noChange →
      save_record_to_previous_sync_db db r
          = some (dbInsert db r.library_relative_path r)
      ∧ ∀ q, dbGet (dbInsert db r.library_relative_path r) q
          = if r.library_relative_path = q then some r else dbGet db q)
    ∧ (∀ db2 q rec, save_record_to_previous_sync_db db r = some db2 →
        dbGet db2 q = some rec → dbGet db q ≠ some rec →
        rec.update_type ≠ some UpdateType.noChange) := by
  refine ⟨?_, ?_, ?_⟩
  · intro hnc
    unfold save_record_to_previous_sync_db
    simp [hu, hnc]
  · intro hne
    constructor
    · unfold save_record_to_previous_sync_db
      simp [hu, hne]
    · intro q
      simp [dbInsert, dbGet]
  · intro db2 q rec hsave hget hchanged
    unfold save_record_to_previous_sync_db at hsave
    simp only [hu] at hsave
    by_cases hnc : u = UpdateType.noChange
    · rw [if_pos hnc] at hsave
      cases hsave
      exact absurd hget hchanged
    · rw [if_neg hnc] at hsave
      cases hsave
      unfold dbInsert dbGet at hget
      split at hget
      · cases hget
        rw [hu]
        intro hcon
        exact hnc (by injection hcon)
      · exact absurd hget hchanged

/-- C6 witness: inserting an Overwrite record into the empty database
stores it under its path. -/
theorem c6_merge_skips_noChange_witness :
    save_record_to_previous_sync_db ([] : PreviousSyncDb) rec_c6
        = some (dbInsert [] rec_c6.library_relative_path rec_c6)
    ∧ dbGet (dbInsert [] rec_c6.library_relative_path rec_c6) "b.mp3"
        = some rec_c6 :=
  ⟨((c6_merge_skips_noChange [] rec_c6 UpdateType.overwrite rfl).2.1
      (by decide)).1, by decide⟩

/-- C7: evaluation at the failing input. The generated candidate list
joins the fixed database filename onto the target library only; for the
working directory and the home directory it contains the directory paths
themselves.  Hence with no database in the target library and a perfectly
parseable records file at /cwd/bopsync.dat, try_read_records still comes
back empty (no history): the file in the working directory is never
tried. -/
theorem c7_candidate_locations_wrong :
    generate_potential_locations_for_database_file "/t" (some "/cwd")
        (some "/home/user")
      = ["/t/bopsync.dat", "/cwd", "/home/user"]
    ∧ parse_c7 "/cwd/bopsync.dat" = some db_c7
    ∧ try_read_records parse_c7 "/t" (some "/cwd") (some "/home/user") = [] := by
  refine ⟨?_, by decide, by decide⟩
  unfold generate_potential_locations_for_database_file PREVIOUS_SYNC_DB_FILENAME
  decide

/-- C8: when the change detector alone returns NoChange but sync_song is
invoked with force = true (and not as a dry run), the early no-work return
is not taken: the transcoder is invoked (the effect trace is exactly the
directory creation followed by the transcode), and on transcoder success
the returned record carries ForceOverwrite. -/
theorem c8_force_upgrade (song : Song) (target_filetype : MusicFileType)
    (art_strategy : ArtStrategy) (previous_sync_db : Option PreviousSyncDb)
    (env : SyncEnv) (desired : Nat)
    (heb : MusicFileType.equivalent_bitrate target_filetype = some desired)
    (hnc : has_music_file_changed song env.detect previous_sync_db
      (want_embedded_album_art art_strategy song) desired
        = UpdateType.noChange) :
    ((sync_song song target_filetype art_strategy previous_sync_db true false
        env).2
      = [FsEffect.createDirAll,
          FsEffect.transcode (whether_to_embed_art art_strategy song)])
    ∧ (env.transcodeResult = Except.ok () →
        (sync_song song target_filetype art_strategy previous_sync_db true
            false env).1
          = SyncOutcome.ok ((SyncRecord.from_song song env).set_update_type
              UpdateType.forceOverwrite)) := by
  unfold sync_song
  simp only [heb, hnc]
  constructor
  · simp only [if_true, Bool.true_eq_false, and_false, if_false]
    cases henv : env.transcodeResult <;> simp
  · intro hok
    simp [hok]

/-- C8 witness: song_plain with a matching record (detection alone says
NoChange), force = true, a 60 kbps CBR target, strategy PreferFile, and a
succeeding transcoder: the trace is create-dir then transcode with embed
instruction true, and the record says ForceOverwrite. -/
theorem c8_force_upgrade_witness :
    has_music_file_changed song_plain env_c8.detect (some db_c8)
        (want_embedded_album_art ArtStrategy.preferFile song_plain) 60
      = UpdateType.noChange
    ∧ (sync_song song_plain (MusicFileType.mp3CBR 60) ArtStrategy.preferFile
        (some db_c8) true false env_c8).2
      = [FsEffect.createDirAll, FsEffect.transcode true]
    ∧ (sync_song song_plain (MusicFileType.mp3CBR 60) ArtStrategy.preferFile
        (some db_c8) true false env_c8).1
      = SyncOutcome.ok ((SyncRecord.from_song song_plain env_c8).set_update_type
          UpdateType.forceOverwrite) :=
  ⟨by decide,
    (c8_force_upgrade song_plain (MusicFileType.mp3CBR 60)
      ArtStrategy.preferFile (some db_c8) env_c8 60 rfl (by decide)).1,
    (c8_force_upgrade song_plain (MusicFileType.mp3CBR 60)
      ArtStrategy.preferFile (some db_c8) env_c8 60 rfl (by decide)).2 rfl⟩

/-- C9: when the detector returns NoChange and force is false, sync_song
short-circuits: it returns a record carrying NoChange and performs no
filesystem write at all - no directory creation, no copy, no transcoder
invocation (the effect trace is empty), for dry and real runs alike. -/
theorem c9_noChange_short_circuit (song : Song)
    (target_filetype : MusicFileType) (art_strategy : ArtStrategy)
    (previous_sync_db : Option PreviousSyncDb) (dry_run : Bool)
    (env : SyncEnv) (desired : Nat)
    (heb : MusicFileType.equivalent_bitrate target_filetype = some desired)
    (hnc : has_music_file_changed song env.detect previous_sync_db
      (want_embedded_album_art art_strategy song) desired
        = UpdateType.noChange) :
    sync_song song target_filetype art_strategy previous_sync_db false
        dry_run env
      = (SyncOutcome.ok ((SyncRecord.from_song song env).set_update_type
          UpdateType.noChange), []) := by
  unfold sync_song
  simp [heb, hnc]

/-- C9 witness: the same NoChange situation as the C8 witness but with
force = false: the result is the NoChange record and an empty effect
trace. -/
theorem c9_noChange_short_circuit_witness :
    has_music_file_changed song_plain env_c8.detect (some db_c8)
        (want_embedded_album_art ArtStrategy.preferFile song_plain) 60
      = UpdateType.noChange
    ∧ sync_song song_plain (MusicFileType.mp3CBR 60) ArtStrategy.preferFile
        (some db_c8) false false env_c8
      = (SyncOutcome.ok ((SyncRecord.from_song song_plain
          env_c8).set_update_type UpdateType.noChange), []) :=
  ⟨by decide,
    c9_noChange_short_circuit song_plain (MusicFileType.mp3CBR 60)
      ArtStrategy.preferFile (some db_c8) false env_c8 60 rfl (by decide)⟩

/-- C10: equivalent_bitrate is total except on the Mp3VBR panic branch:
for quality 0 through 9 it returns the fixed table values 245, 225, 190,
175, 165, 130, 115, 100, 85, 65; for every quality above 9 it reaches the
panic (modelled as none); and the Mp3CBR, Opus, Vorbis and Flac variants
return a value for every parameter. -/
theorem c10_equivalent_bitrate_totality :
    (MusicFileType.equivalent_bitrate (MusicFileType.mp3VBR 0) = some 245
      ∧ MusicFileType.equivalent_bitrate (MusicFileType.mp3VBR 1) = some 225
      ∧ MusicFileType.equivalent_bitrate (MusicFileType.mp3VBR 2) = some 190
      ∧ MusicFileType.equivalent_bitrate (MusicFileType.mp3VBR 3) = some 175
      ∧ MusicFileType.equivalent_bitrate (MusicFileType.mp3VBR 4) = some 165
      ∧ MusicFileType.equivalent_bitrate (MusicFileType.mp3VBR 5) = some 130
      ∧ MusicFileType.equivalent_bitrate (MusicFileType.mp3VBR 6) = some 115
      ∧ MusicFileType.equivalent_bitrate (MusicFileType.mp3VBR 7) = some 100
      ∧ MusicFileType.equivalent_bitrate (MusicFileType.mp3VBR 8) = some 85
      ∧ MusicFileType.equivalent_bitrate (MusicFileType.mp3VBR 9) = some 65)
    ∧ (∀ quality : Nat, 9 < quality →
        MusicFileType.equivalent_bitrate (MusicFileType.mp3VBR quality)
          = Option.none)
    ∧ (∀ quality : Nat, quality ≤ 9 →
        (MusicFileType.equivalent_bitrate
          (MusicFileType.mp3VBR quality)).isSome = true)
    ∧ (∀ bitrate : Nat,
        (MusicFileType.equivalent_bitrate
          (MusicFileType.mp3CBR bitrate)).isSome = true)
    ∧ (∀ bitrate compression_level : Nat,
        (MusicFileType.equivalent_bitrate
          (MusicFileType.opus bitrate compression_level)).isSome = true)
    ∧ (∀ quality : ℚ,
        (MusicFileType.equivalent_bitrate
          (MusicFileType.vorbis quality)).isSome = true)
    ∧ (∀ quality : Nat,
        (MusicFileType.equivalent_bitrate
          (MusicFileType.flac quality)).isSome = true) := by
  refine ⟨by decide, ?_, ?_, fun _ => rfl, fun _ _ => rfl, fun _ => rfl,
    fun _ => rfl⟩
  · intro quality hq
    simp only [MusicFileType.equivalent_bitrate]
    split
    all_goals first | rfl | omega
  · intro quality hq
    interval_cases quality <;> decide

/-- C10 witness: quality 10 panics, quality 9 does not. -/
theorem c10_equivalent_bitrate_totality_witness :
    MusicFileType.equivalent_bitrate (MusicFileType.mp3VBR 10) = Option.none
    ∧ (MusicFileType.equivalent_bitrate (MusicFileType.mp3VBR 9)).isSome
        = true :=
  ⟨c10_equivalent_bitrate_totality.2.1 10 (by decide),
    c10_equivalent_bitrate_totality.2.2.1 9 (by decide)⟩

end Syncbops
